import Mathlib

/-
Verification of the G-code normalization and safety-annotation pipeline
(`GCode/gcode_normalizer.py` and `GCode/preprocessor.py`).

The embedding is a shallow model of the two passes: lines are lists of
characters, the regular expressions of the source are implemented as
explicit, executable scanners with the same matching semantics
(leftmost search, greedy repetition with the backtracking behaviour the
patterns actually exhibit, case sensitivity as in the source), and
Python floats are modelled by exact rationals routed through an
executable IEEE-754 binary64 rounding function.  Character classes
(whitespace, line breaks) model the ASCII/Latin-1 range that G-code
programs use.
-/

namespace GCodeModel

abbrev Line := List Char

/-- ASCII/Latin-1 characters Python's str.strip and the regex class \s
treat as whitespace. -/
def isPySpace (c : Char) : Bool :=
  c = ' ' || c = '\t' || c = '\n' || c = '\x0d' ||
  c = Char.ofNat 11 || c = Char.ofNat 12 ||
  c = Char.ofNat 28 || c = Char.ofNat 29 || c = Char.ofNat 30 ||
  c = Char.ofNat 31 || c = Char.ofNat 133 || c = Char.ofNat 160

/-- Python line.strip(): drop whitespace from both ends. -/
def pyStrip (l : Line) : Line :=
  ((l.dropWhile isPySpace).reverse.dropWhile isPySpace).reverse

/-- Python line.lstrip(): drop whitespace from the left end. -/
def pyLStrip (l : Line) : Line := l.dropWhile isPySpace

/-- True when the list starts with a decimal digit; used for the
(?![0-9]) lookaheads. -/
def headIsDigit : Line → Bool
  | c :: _ => c.isDigit
  | [] => false

/-- Characters Python's str.splitlines treats as line boundaries
(in the ASCII/Latin-1 range). -/
def isLineBreak (c : Char) : Bool :=
  c = '\n' || c = '\x0d' || c = Char.ofNat 11 || c = Char.ofNat 12 ||
  c = Char.ofNat 28 || c = Char.ofNat 29 || c = Char.ofNat 30 ||
  c = Char.ofNat 133

/-- content.splitlines(True): split into lines, keeping terminators;
a \r\n pair is a single boundary. -/
def splitKeepAux (cur : Line) : Line → List Line
  | [] => if cur.isEmpty then [] else [cur.reverse]
  | '\x0d' :: '\n' :: rest => (cur.reverse ++ ['\x0d', '\n']) :: splitKeepAux [] rest
  | c :: rest =>
    if isLineBreak c then (cur.reverse ++ [c]) :: splitKeepAux [] rest
    else splitKeepAux (c :: cur) rest

def splitlinesKeep (l : Line) : List Line := splitKeepAux [] l

/-- content.splitlines(): split into lines, dropping terminators. -/
def splitDropAux (cur : Line) : Line → List Line
  | [] => if cur.isEmpty then [] else [cur.reverse]
  | '\x0d' :: '\n' :: rest => cur.reverse :: splitDropAux [] rest
  | c :: rest =>
    if isLineBreak c then cur.reverse :: splitDropAux [] rest
    else splitDropAux (c :: cur) rest

def splitlinesDrop (l : Line) : List Line := splitDropAux [] l

def digitChar (n : Nat) : Char := Char.ofNat (48 + n)

def natDigitsAux : Nat → Nat → Line
  | 0, _ => []
  | fuel + 1, n => if n = 0 then [] else natDigitsAux fuel (n / 10) ++ [digitChar (n % 10)]

/-- Decimal rendering of a natural number, as Python str() produces. -/
def natToStr (n : Nat) : Line := if n = 0 then ['0'] else natDigitsAux (n + 1) n

/-- Python substring containment: pat in l. -/
def hasSub (pat : Line) : Line → Bool
  | [] => pat.isPrefixOf []
  | c :: rest => pat.isPrefixOf (c :: rest) || hasSub pat rest

/-- re.search as a Boolean: does the position matcher p succeed at some
position of the line (positions tried left to right)? -/
def searchPos (p : Line → Bool) : Line → Bool
  | [] => p []
  | c :: rest => p (c :: rest) || searchPos p rest

/-! ### Exact rationals and IEEE-754 binary64 rounding

Python's float arithmetic decides the coordinate-redundancy test
abs(new - old) < 0.0001, so coordinate values are modelled as exact
rationals obtained by rounding the decimal literal to the nearest
binary64 value.  The representation is an unnormalized fraction with a
positive denominator so that all operations reduce inside the kernel. -/

/-- Unnormalized rational number: num/den with den positive by
construction at every use site. -/
structure Q where
  num : Int
  den : Nat
  deriving DecidableEq

def qSub (a b : Q) : Q := ⟨a.num * b.den - b.num * a.den, a.den * b.den⟩

def qAbs (a : Q) : Q := ⟨(a.num.natAbs : Int), a.den⟩

/-- a < b for positive denominators. -/
def qLt (a b : Q) : Bool := decide (a.num * (b.den : Int) < b.num * (a.den : Int))

def natLog2Aux : Nat → Nat → Nat
  | 0, _ => 0
  | fuel + 1, n => if n ≤ 1 then 0 else natLog2Aux fuel (n / 2) + 1

/-- Floor of log2 n, for n ≥ 1. -/
def natLog2 (n : Nat) : Nat := natLog2Aux n n

/-- The exponent e with 2^e ≤ n/d < 2^(e+1), for n, d ≥ 1. -/
def qExp2 (n d : Nat) : Int :=
  if d ≤ n then (natLog2 (n / d) : Int)
  else
    let k := natLog2 (d / n)
    if n * 2 ^ k = d then -(k : Int) else -((k : Int) + 1)

/-- Round n/d (d ≥ 1) to the nearest integer, ties to even. -/
def rneNat (n d : Nat) : Nat :=
  let q := n / d
  let r := n % d
  if 2 * r < d then q
  else if d < 2 * r then q + 1
  else if q % 2 = 0 then q else q + 1

/-- Nearest binary64 value of the positive rational n/d, as an exact
rational.  Faithful on the normal range of binary64, which covers every
magnitude this pipeline handles. -/
def flPos (n d : Nat) : Q :=
  let e := qExp2 n d
  let m : Nat :=
    match (52 - e : Int) with
    | .ofNat j => rneNat (n * 2 ^ j) d
    | .negSucc j => rneNat n (d * 2 ^ (j + 1))
  match (e - 52 : Int) with
  | .ofNat k => ⟨Int.ofNat (m * 2 ^ k), 1⟩
  | .negSucc k => ⟨Int.ofNat m, 2 ^ (k + 1)⟩

/-- Nearest binary64 value of a rational (round to nearest, ties to
even), as an exact rational; models Python float conversion. -/
def fl (a : Q) : Q :=
  match a.num with
  | .ofNat 0 => ⟨0, 1⟩
  | .ofNat (n + 1) => flPos (n + 1) a.den
  | .negSucc n => let p := flPos (n + 1) a.den; ⟨-p.num, p.den⟩

/-- Python float subtraction: exact difference rounded to binary64. -/
def floatSub (a b : Q) : Q := fl (qSub a b)

/-- The float literal 0.0001 used by the redundancy test. -/
def eps64 : Q := fl ⟨1, 10000⟩

/-! ### Number-literal matching

The coordinate patterns of the source use the regex
[+-]?[0-9]*\.?[0-9]+ ; the scanner below reproduces the regex engine's
result: the dot is consumed only when at least one digit follows it,
and a sign with nothing matchable after it fails. -/

def digitsToNat (l : Line) : Nat := l.foldl (fun a c => a * 10 + (c.toNat - 48)) 0

/-- Exact rational value of a matched decimal literal. -/
def numValue (neg : Bool) (intPart fracPart : Line) : Q :=
  let n : Nat := digitsToNat (intPart ++ fracPart)
  ⟨if neg then -(n : Int) else (n : Int), 10 ^ fracPart.length⟩

structure NumTok where
  value : Q
  rest : Line
  deriving DecidableEq

/-- Match [+-]?[0-9]*\.?[0-9]+ at the start of l, returning the exact
value of the matched literal and the unconsumed remainder. -/
def matchNumber (l : Line) : Option NumTok :=
  let signedTail :=
    match l with
    | '+' :: t => (false, t)
    | '-' :: t => (true, t)
    | _ => (false, l)
  let neg := signedTail.1
  let l1 := signedTail.2
  let ds := l1.takeWhile Char.isDigit
  let l2 := l1.dropWhile Char.isDigit
  match l2 with
  | '.' :: t =>
    let fs := t.takeWhile Char.isDigit
    if fs.isEmpty then
      if ds.isEmpty then none else some ⟨numValue neg ds [], l2⟩
    else some ⟨numValue neg ds fs, t.dropWhile Char.isDigit⟩
  | _ => if ds.isEmpty then none else some ⟨numValue neg ds [], l2⟩

/-! ### Scanners for the source's regular expressions -/

/-- At-position match of G<d>(?![0-9]) for a single digit d; the
patterns of _normalize_g_format and the statistics checks. -/
def matchGBare (d : Char) : Line → Bool
  | 'G' :: c :: rest => c = d && !headIsDigit rest
  | _ => false

/-- re.sub(G<d>(?![0-9]), G0<d>): rewrite every occurrence, scanning
left to right and resuming after each replacement, exactly as re.sub
does (the lookahead consumes nothing). -/
def gsubBare (d : Char) : Line → Line
  | [] => []
  | [c] => [c]
  | c :: c2 :: t2 =>
    if c = 'G' then
      if c2 = d && !headIsDigit t2 then 'G' :: '0' :: d :: gsubBare d t2
      else 'G' :: gsubBare d (c2 :: t2)
    else c :: gsubBare d (c2 :: t2)

/-- _normalize_g_format: the four re.sub rewrites applied in source
order (G0 then G1 then G2 then G3). -/
def normalize_g_format (l : Line) : Line :=
  gsubBare '3' (gsubBare '2' (gsubBare '1' (gsubBare '0' l)))

def isMotionDigit (c : Char) : Bool := c = '0' || c = '1' || c = '2' || c = '3'

/-- Modelled from the spec: a single simultaneous pass that rewrites
every occurrence of a bare G0/G1/G2/G3 (not followed by another digit)
to G00/G01/G02/G03 and copies every other character verbatim.  Used as
the specification the four sequential rewrites are proved to refine. -/
def gsubAll : Line → Line
  | [] => []
  | [c] => [c]
  | c :: c2 :: t2 =>
    if c = 'G' then
      if isMotionDigit c2 && !headIsDigit t2 then 'G' :: '0' :: c2 :: gsubAll t2
      else 'G' :: gsubAll (c2 :: t2)
    else c :: gsubAll (c2 :: t2)

def isZero (c : Char) : Bool := c = '0'

/-- At-position match of G0+(?![0-9]), the modal G00 pattern. -/
def matchG00 : Line → Bool
  | 'G' :: rest =>
    !(rest.takeWhile isZero).isEmpty && !headIsDigit (rest.dropWhile isZero)
  | _ => false

/-- At-position match of G0*k(?![0-9]) for a nonzero digit k, the modal
G01/G02/G03 patterns. -/
def matchGStar (k : Char) : Line → Bool
  | 'G' :: rest =>
    match rest.dropWhile isZero with
    | c :: rest2 => c = k && !headIsDigit rest2
    | [] => false
  | _ => false

/-- At-position match of G0*ab(?![0-9]) for a two-digit code ab, the
modal plane/units/distance/feedrate patterns. -/
def matchGStar2 (a b : Char) : Line → Bool
  | 'G' :: rest =>
    match rest.dropWhile isZero with
    | c :: c2 :: rest2 => c = a && c2 = b && !headIsDigit rest2
    | _ => false
  | _ => false

/-- At-position match of the tool-change pattern T\d+M0*6. -/
def matchTool : Line → Bool
  | 'T' :: rest =>
    !(rest.takeWhile Char.isDigit).isEmpty &&
    (match rest.dropWhile Char.isDigit with
     | 'M' :: rest2 =>
       (match rest2.dropWhile isZero with
        | '6' :: _ => true
        | _ => false)
     | _ => false)
  | _ => false

/-- At-position match of G\d+ (the has_g_code test before insertion). -/
def matchGDigit : Line → Bool
  | 'G' :: c :: _ => c.isDigit
  | _ => false

/-- At-position match of G0*1 with no lookahead (the statistics pattern
for counting added G01 commands). -/
def matchG01NoLA : Line → Bool
  | 'G' :: rest =>
    match rest.dropWhile isZero with
    | '1' :: _ => true
    | _ => false
  | _ => false

/-- First match of X([+-]?[0-9]*\.?[0-9]+) (IGNORECASE, so upper- or
lower-case letter), returning the captured value; the coordinate
extraction patterns. -/
def axisSearch (u low : Char) : Line → Option Q
  | [] => none
  | c :: rest =>
    if c = u || c = low then
      match matchNumber rest with
      | some t => some t.value
      | none => axisSearch u low rest
    else axisSearch u low rest

/-- re.sub(A[+-]?[0-9]*\.?[0-9]+, ''): delete every (case-sensitive)
axis token, resuming the scan after each deleted match. -/
def subAxisAux (u : Char) : Nat → Line → Line
  | _, [] => []
  | 0, l => l
  | fuel + 1, c :: rest =>
    if c = u then
      match matchNumber rest with
      | some t => subAxisAux u fuel t.rest
      | none => c :: subAxisAux u fuel rest
    else c :: subAxisAux u fuel rest

def subAxis (u : Char) (l : Line) : Line := subAxisAux u l.length l

/-- len(re.findall([XYZ][+-]?[0-9]*\.?[0-9]+, l)): the number of
non-overlapping axis-token matches, used by the removal statistic. -/
def countAxisAux : Nat → Line → Nat
  | _, [] => 0
  | 0, _ => 0
  | fuel + 1, c :: rest =>
    if c = 'X' || c = 'Y' || c = 'Z' then
      match matchNumber rest with
      | some t => countAxisAux fuel t.rest + 1
      | none => countAxisAux fuel rest
    else countAxisAux fuel rest

def countAxisTokens (l : Line) : Nat := countAxisAux l.length l

/-! ### Normalizer state machine -/

structure Position where
  x : Option Q
  y : Option Q
  z : Option Q
  deriving DecidableEq

structure Modal where
  motion : Option Line
  plane : Line
  units : Line
  distance : Line
  feedrate : Line
  deriving DecidableEq

structure NormState where
  current_position : Position
  current_modal_state : Modal
  deriving DecidableEq

/-- The state _reset_state installs: unknown position, no motion mode,
G17 plane, G21 units, G90 distance, G94 feed-rate mode. -/
def initialState : NormState :=
  ⟨⟨none, none, none⟩, ⟨none, "G17".data, "G21".data, "G90".data, "G94".data⟩⟩

/-- Motion branch of _update_modal_state: the four patterns are tried
in dictionary order G00, G01, G02, G03 with a break at the first hit. -/
def searchMotion (l : Line) : Option Line :=
  if searchPos matchG00 l then some "G00".data
  else if searchPos (matchGStar '1') l then some "G01".data
  else if searchPos (matchGStar '2') l then some "G02".data
  else if searchPos (matchGStar '3') l then some "G03".data
  else none

def searchPlane (l : Line) : Option Line :=
  if searchPos (matchGStar2 '1' '7') l then some "G17".data
  else if searchPos (matchGStar2 '1' '8') l then some "G18".data
  else if searchPos (matchGStar2 '1' '9') l then some "G19".data
  else none

def searchUnits (l : Line) : Option Line :=
  if searchPos (matchGStar2 '2' '0') l then some "G20".data
  else if searchPos (matchGStar2 '2' '1') l then some "G21".data
  else none

def searchDistance (l : Line) : Option Line :=
  if searchPos (matchGStar2 '9' '0') l then some "G90".data
  else if searchPos (matchGStar2 '9' '1') l then some "G91".data
  else none

def searchFeedrate (l : Line) : Option Line :=
  if searchPos (matchGStar2 '9' '3') l then some "G93".data
  else if searchPos (matchGStar2 '9' '4') l then some "G94".data
  else none

/-- _update_modal_state: update each modal family from the line, then
reset position tracking if the tool-change pattern occurs.  Returns the
new state and whether any modal family was updated (the tool-change
reset does not set the flag). -/
def update_modal_state (l : Line) (s : NormState) : NormState × Bool :=
  let m := s.current_modal_state
  let motion := searchMotion l
  let plane := searchPlane l
  let units := searchUnits l
  let distance := searchDistance l
  let feedrate := searchFeedrate l
  let updated := motion.isSome || plane.isSome || units.isSome ||
    distance.isSome || feedrate.isSome
  let modal : Modal :=
    ⟨(motion.map some).getD m.motion, plane.getD m.plane, units.getD m.units,
     distance.getD m.distance, feedrate.getD m.feedrate⟩
  let pos : Position :=
    if searchPos matchTool l then ⟨none, none, none⟩ else s.current_position
  (⟨pos, modal⟩, updated)

structure Coords where
  x : Option Q
  y : Option Q
  z : Option Q
  deriving DecidableEq

/-- _extract_coordinates: first X/Y/Z value on the line (IGNORECASE),
converted to float. -/
def extract_coordinates (l : Line) : Coords :=
  ⟨(axisSearch 'X' 'x' l).map fl,
   (axisSearch 'Y' 'y' l).map fl,
   (axisSearch 'Z' 'z' l).map fl⟩

def coordsEmpty (c : Coords) : Bool := c.x.isNone && c.y.isNone && c.z.isNone

/-- The inner redundancy test: the axis has a value on the line, its
position is known, and the float difference is inside 0.0001. -/
def isRedundant (pos : Option Q) (v : Option Q) : Bool :=
  match v, pos with
  | some cv, some p => qLt (qAbs (floatSub cv p)) eps64
  | _, _ => false

structure RemovalResult where
  line : Line
  removed : List Char
  deriving DecidableEq

/-- One iteration of the removal loop for a single axis. -/
def removalStep (axis : Char) (cv pv : Option Q) (acc : RemovalResult) : RemovalResult :=
  if isRedundant pv cv then
    let l2 := subAxis axis acc.line
    if l2 = acc.line then ⟨l2, acc.removed⟩ else ⟨l2, acc.removed ++ [axis]⟩
  else acc

/-- The removal phase of _handle_coordinates: guarded by "some axis
position is known", then the X, Y, Z iterations in order, recording an
axis as removed only when the substitution changed the text. -/
def removalStage (s : NormState) (coords : Coords) (l : Line) : RemovalResult :=
  let p := s.current_position
  if p.x.isSome || p.y.isSome || p.z.isSome then
    removalStep 'Z' coords.z p.z
      (removalStep 'Y' coords.y p.y
        (removalStep 'X' coords.x p.x ⟨l, []⟩))
  else ⟨l, []⟩

/-- The insertion phase of _handle_coordinates: when no modal family
was updated by the line and the (post-removal) text has no G<digit>,
insert the current modal motion command — defaulting to G01 when no
motion mode is set — after a leading line-number token if present,
else at the very start. -/
def lineNumTok (l : Line) : Option Line :=
  match l with
  | 'N' :: rest =>
    let ds := rest.takeWhile Char.isDigit
    if ds.isEmpty then none else some ('N' :: ds)
  | _ => none

def insertStage (s : NormState) (modalUpdated : Bool) (l : Line) : Line :=
  if !modalUpdated && !searchPos matchGDigit l then
    let motion := s.current_modal_state.motion.getD "G01".data
    match lineNumTok l with
    | some p => p ++ motion ++ pyLStrip (l.drop p.length)
    | none => motion ++ l
  else l

/-- Keep the new value when the line carried one, else the old one. -/
def updCoord (n o : Option Q) : Option Q :=
  match n with
  | some v => some v
  | none => o

structure HandleResult where
  line : Line
  state : NormState
  removed : List Char
  deriving DecidableEq

/-- _handle_coordinates: removal of redundant coordinates, insertion of
an explicit motion command, then the position update with every
coordinate the line carried (removed or not). -/
def handle_coordinates (l : Line) (coords : Coords) (modalUpdated : Bool)
    (s : NormState) : HandleResult :=
  if coordsEmpty coords then ⟨l, s, []⟩
  else
    let r := removalStage s coords l
    let l2 := insertStage s modalUpdated r.line
    let p := s.current_position
    let pos : Position :=
      ⟨updCoord coords.x p.x, updCoord coords.y p.y, updCoord coords.z p.z⟩
    ⟨l2, ⟨pos, s.current_modal_state⟩, r.removed⟩

/-- Comment/blank test of _normalize_line on the stripped text. -/
def isCommentOrBlankStripped (stripped : Line) : Bool :=
  stripped.isEmpty || stripped.head? = some '(' || stripped.head? = some ';'

def endsWithNL (l : Line) : Bool := decide (l.getLast? = some '\n')

structure LineResult where
  line : Line
  state : NormState
  removed : List Char
  deriving DecidableEq

/-- _normalize_line: comments and blanks pass through untouched;
otherwise strip, canonicalize the G format, update modal state, extract
coordinates, handle removal/insertion, and restore a trailing newline
when the original line had one. -/
def normalizeLineFull (s : NormState) (l : Line) : LineResult :=
  let stripped := pyStrip l
  if isCommentOrBlankStripped stripped then ⟨l, s, []⟩
  else
    let hasNL := endsWithNL l
    let n1 := normalize_g_format stripped
    let su := update_modal_state n1 s
    let coords := extract_coordinates n1
    let h :=
      if coordsEmpty coords then (⟨n1, su.1, []⟩ : HandleResult)
      else handle_coordinates n1 coords su.2 su.1
    let n3 := if hasNL && !endsWithNL h.line then h.line ++ ['\n'] else h.line
    ⟨n3, h.state, h.removed⟩

def normalize_line (s : NormState) (l : Line) : Line × NormState :=
  let r := normalizeLineFull s l
  (r.line, r.state)

/-! ### _normalize_content: the full pass with statistics -/

structure ContentAcc where
  result : List Line
  state : NormState
  line_count : Nat
  g_codes_normalized : Nat
  coordinates_removed : Nat
  g01_commands_added : Nat

/-- The statistics test for a mnemonic rewrite: some bare G0/G1/G2/G3
in the original together with the canonical form in the output. -/
def gNormStatHit (original normalized : Line) : Bool :=
  (searchPos (matchGBare '0') original && hasSub "G00".data normalized) ||
  (searchPos (matchGBare '1') original && hasSub "G01".data normalized) ||
  (searchPos (matchGBare '2') original && hasSub "G02".data normalized) ||
  (searchPos (matchGBare '3') original && hasSub "G03".data normalized)

/-- One iteration of the _normalize_content loop. -/
def contentStep (acc : ContentAcc) (l : Line) : ContentAcc :=
  let lc := acc.line_count + 1
  if (pyStrip l).isEmpty then
    { acc with result := acc.result ++ [l], line_count := lc }
  else
    let r := normalize_line acc.state l
    let nl := r.1
    let changed := decide (nl ≠ l)
    { result := acc.result ++ [nl]
      state := r.2
      line_count := lc
      g_codes_normalized :=
        acc.g_codes_normalized + (if changed && gNormStatHit l nl then 1 else 0)
      coordinates_removed :=
        acc.coordinates_removed +
          (if changed && decide (countAxisTokens nl < countAxisTokens l) then 1 else 0)
      g01_commands_added :=
        acc.g01_commands_added +
          (if changed && (!searchPos matchG01NoLA l && searchPos matchG01NoLA nl)
           then 1 else 0) }

def normHeader (filename timestamp : Line) : List Line :=
  ["(Normalized G-code generated by GCodeNormalizer)\n".data,
   "(Original file: ".data ++ filename ++ ")\n".data,
   "(Generated on: ".data ++ timestamp ++ ")\n".data,
   "\n".data]

def normFooter (lc g c a : Nat) : List Line :=
  ["\n".data,
   "(End of normalized G-code)\n".data,
   "(Processed ".data ++ natToStr lc ++ " lines)\n".data,
   "(Normalized ".data ++ natToStr g ++ " G-codes)\n".data,
   "(Removed ".data ++ natToStr c ++ " redundant coordinates)\n".data,
   "(Added ".data ++ natToStr a ++ " explicit G01 commands)\n".data]

structure NormResult where
  processed_content : Line
  line_count : Nat
  g_codes_normalized : Nat
  coordinates_removed : Nat
  g01_commands_added : Nat
  deriving DecidableEq

/-- _normalize_content: header, the per-line loop from a fresh state,
and the statistics footer, joined into the output text. -/
def normalize_content (content filename timestamp : Line) : NormResult :=
  let lines := splitlinesKeep content
  let acc0 : ContentAcc := ⟨normHeader filename timestamp, initialState, 0, 0, 0, 0⟩
  let acc := lines.foldl contentStep acc0
  ⟨(acc.result ++ normFooter acc.line_count acc.g_codes_normalized
      acc.coordinates_removed acc.g01_commands_added).flatten,
   acc.line_count, acc.g_codes_normalized, acc.coordinates_removed,
   acc.g01_commands_added⟩

/-! ### Safety Annotator (preprocessor.py) -/

/-- The lookahead class [XYZIJKRF\s] of the analyzer patterns. -/
def lookChar (c : Char) : Bool :=
  c = 'X' || c = 'Y' || c = 'Z' || c = 'I' || c = 'J' || c = 'K' ||
  c = 'R' || c = 'F' || isPySpace c

/-- At-position match of (?:N\d+)?G0*k(?=[XYZIJKRF\s]|$).  The optional
line-number prefix can never turn a failing search into a succeeding
one, so the Boolean search is equivalent to searching the core. -/
def matchAnalyzerG (k : Char) : Line → Bool
  | 'G' :: rest =>
    (match rest.dropWhile isZero with
     | c :: rest2 =>
       c = k && (match rest2 with
                 | [] => true
                 | c2 :: _ => lookChar c2)
     | [] => false)
  | _ => false

/-- At-position match of [Xx][+-]?[0-9.]+ (the analyzer's axis
patterns; note the class [0-9.] admits dots freely). -/
def matchSimpleAxis (u low : Char) : Line → Bool
  | c :: rest =>
    (c = u || c = low) &&
    (match rest with
     | c2 :: rest2 =>
       (c2.isDigit || c2 = '.') ||
       ((c2 = '+' || c2 = '-') &&
        (match rest2 with
         | c3 :: _ => c3.isDigit || c3 = '.'
         | [] => false))
     | [] => false)
  | [] => false

structure Movement where
  g_code : Nat
  x_move : Nat
  y_move : Nat
  z_move : Nat
  needs_check : Bool
  deriving DecidableEq

/-- MovementAnalyzer.analyze_line: G1/G2/G3 detection in that order,
axis flags only for movement commands. -/
def analyze_line (l : Line) : Movement :=
  let g1 := searchPos (matchAnalyzerG '1') l
  let g2 := searchPos (matchAnalyzerG '2') l
  let g3 := searchPos (matchAnalyzerG '3') l
  let gasn : Nat × Bool :=
    if g1 then (1, true) else if g2 then (2, true)
    else if g3 then (3, true) else (0, false)
  if gasn.2 then
    ⟨gasn.1,
     if searchPos (matchSimpleAxis 'X' 'x') l then 1 else 0,
     if searchPos (matchSimpleAxis 'Y' 'y') l then 1 else 0,
     if searchPos (matchSimpleAxis 'Z' 'z') l then 1 else 0,
     true⟩
  else ⟨0, 0, 0, 0, false⟩

/-- The five safety-directive lines emitted before a movement line. -/
def safetyBlock (m : Movement) : List Line :=
  ["#600 = ".data ++ natToStr m.g_code,
   "#601 = ".data ++ natToStr m.x_move,
   "#602 = ".data ++ natToStr m.y_move,
   "#603 = ".data ++ natToStr m.z_move,
   "M150".data]

/-- The lines one input line contributes to the output, and whether a
safety check was added for it. -/
def procLine (l : Line) : List Line × Nat :=
  let stripped := pyStrip l
  if isCommentOrBlankStripped stripped then ([l], 0)
  else
    let m := analyze_line stripped
    if m.needs_check then (safetyBlock m ++ [l], 1) else ([l], 0)

structure ProcAcc where
  result : List Line
  line_count : Nat
  safety_checks_added : Nat

/-- One iteration of the _process_content loop. -/
def procStep (acc : ProcAcc) (l : Line) : ProcAcc :=
  ⟨acc.result ++ (procLine l).1, acc.line_count + 1,
   acc.safety_checks_added + (procLine l).2⟩

def procHeader (filename timestamp : Line) : List Line :=
  ["(Safety-enhanced G-code generated by preprocessor)".data,
   "(Original file: ".data ++ filename ++ ")".data,
   "(Generated on: ".data ++ timestamp ++ ")".data,
   []]

def procFooter (n : Nat) : List Line :=
  [[], "(End of safety-enhanced G-code)".data,
   "(Added ".data ++ natToStr n ++ " safety checks)".data]

/-- The accumulated loop state of _process_content. -/
def process_lines (content filename timestamp : Line) : ProcAcc :=
  (splitlinesDrop content).foldl procStep ⟨procHeader filename timestamp, 0, 0⟩

structure ProcResult where
  processed_content : Line
  line_count : Nat
  safety_checks_added : Nat
  deriving DecidableEq

/-- _process_content: header, per-line loop, footer, joined with
newlines ("\n".join — separators, no trailing newline). -/
def process_content (content filename timestamp : Line) : ProcResult :=
  let acc := process_lines content filename timestamp
  ⟨(List.intercalate ['\n'] (acc.result ++ procFooter acc.safety_checks_added)),
   acc.line_count, acc.safety_checks_added⟩

/-- The three tracked axes, for stating per-axis properties. -/
inductive Axis
  | X
  | Y
  | Z
  deriving DecidableEq

def Axis.char : Axis → Char
  | .X => 'X'
  | .Y => 'Y'
  | .Z => 'Z'

def Position.get (p : Position) : Axis → Option Q
  | .X => p.x
  | .Y => p.y
  | .Z => p.z

def Coords.get (c : Coords) : Axis → Option Q
  | .X => c.x
  | .Y => c.y
  | .Z => c.z

/-- A line the Safety Annotator recognizes: neither blank nor a
comment, and the analyzer flags it as needing a check. -/
def isRecognizedMotionLine (l : Line) : Bool :=
  !(isCommentOrBlankStripped (pyStrip l)) && (analyze_line (pyStrip l)).needs_check

/-- A line whose only motion mnemonic (in the Normalizer's
digit-boundary sense) is G00: some G0+ occurrence and no G0*1, G0*2 or
G0*3 occurrence. -/
def onlyG00Motion (l : Line) : Bool :=
  searchPos matchG00 (pyStrip l) &&
  !(searchPos (matchGStar '1') (pyStrip l)) &&
  !(searchPos (matchGStar '2') (pyStrip l)) &&
  !(searchPos (matchGStar '3') (pyStrip l))

/-! ### Helper lemmas -/

theorem isPySpace_not_digit (c : Char) (h : isPySpace c = true) : c.isDigit = false := by
  unfold isPySpace at h
  simp only [Bool.or_eq_true, decide_eq_true_eq] at h
  rcases h with
    (((((((((((rfl | rfl) | rfl) | rfl) | rfl) | rfl) | rfl) | rfl) | rfl) | rfl) | rfl) | rfl) <;>
    decide

theorem lookChar_not_digit (c : Char) (h : lookChar c = true) : c.isDigit = false := by
  unfold lookChar at h
  simp only [Bool.or_eq_true, decide_eq_true_eq] at h
  rcases h with ((((((((rfl | rfl) | rfl) | rfl) | rfl) | rfl) | rfl) | rfl) | h)
  any_goals decide
  exact isPySpace_not_digit c h

/-- The analyzer's G0*k pattern (with its axis-or-space lookahead)
matches only where the Normalizer's G0*k(?![0-9]) pattern matches. -/
theorem matchAnalyzerG_imp_matchGStar (k : Char) (l : Line)
    (h : matchAnalyzerG k l = true) : matchGStar k l = true := by
  unfold matchAnalyzerG at h
  unfold matchGStar
  split at h
  case h_2 => exact absurd h (by simp)
  case h_1 rest =>
    cases hd : rest.dropWhile isZero with
    | nil => rw [hd] at h; exact absurd h (by simp)
    | cons c rest2 =>
      rw [hd] at h
      simp only [Bool.and_eq_true] at h
      simp only [Bool.and_eq_true]
      refine ⟨h.1, ?_⟩
      cases rest2 with
      | nil => rfl
      | cons c2 t =>
        have hl : lookChar c2 = true := h.2
        simp [headIsDigit, lookChar_not_digit c2 hl]

theorem searchPos_mono (p q : Line → Bool) (hpq : ∀ l, p l = true → q l = true) :
    ∀ l, searchPos p l = true → searchPos q l = true := by
  intro l
  induction l with
  | nil => intro h; exact hpq [] h
  | cons c rest ih =>
    intro h
    simp only [searchPos, Bool.or_eq_true] at h ⊢
    rcases h with h | h
    · exact Or.inl (hpq _ h)
    · exact Or.inr (ih h)

theorem procLine_eq (l : Line) :
    procLine l =
      (if isRecognizedMotionLine l
       then (safetyBlock (analyze_line (pyStrip l)) ++ [l], 1)
       else ([l], 0)) := by
  unfold procLine isRecognizedMotionLine
  cases h : isCommentOrBlankStripped (pyStrip l) <;>
    simp only [h, Bool.not_false, Bool.not_true, Bool.true_and, Bool.false_and,
      if_true, if_false]
  · cases h2 : (analyze_line (pyStrip l)).needs_check <;> simp [h2]
  · simp

theorem procFold_result (ls : List Line) (acc : ProcAcc) :
    (ls.foldl procStep acc).result =
      acc.result ++ ls.flatMap (fun l => (procLine l).1) := by
  induction ls generalizing acc with
  | nil => simp
  | cons l ls ih =>
    simp only [List.foldl_cons, ih, procStep, List.flatMap_cons, List.append_assoc]

theorem procFold_count (ls : List Line) (acc : ProcAcc) :
    (ls.foldl procStep acc).safety_checks_added =
      acc.safety_checks_added + ls.countP isRecognizedMotionLine := by
  induction ls generalizing acc with
  | nil => simp
  | cons l ls ih =>
    simp only [List.foldl_cons, ih, procStep, List.countP_cons]
    rw [procLine_eq l]
    cases h : isRecognizedMotionLine l <;> (simp [h]; try omega)

/-- Facts about the analyzer result when a check is needed. -/
theorem analyze_needs (l : Line) (h : (analyze_line l).needs_check = true) :
    (analyze_line l).g_code ∈ [1, 2, 3] ∧
    (analyze_line l).x_move = (if searchPos (matchSimpleAxis 'X' 'x') l then 1 else 0) ∧
    (analyze_line l).y_move = (if searchPos (matchSimpleAxis 'Y' 'y') l then 1 else 0) ∧
    (analyze_line l).z_move = (if searchPos (matchSimpleAxis 'Z' 'z') l then 1 else 0) := by
  unfold analyze_line at h ⊢
  cases h1 : searchPos (matchAnalyzerG '1') l <;>
  cases h2 : searchPos (matchAnalyzerG '2') l <;>
  cases h3 : searchPos (matchAnalyzerG '3') l <;>
  simp [h1, h2, h3] at h ⊢

/-! ### Claims -/

/-- C10: for every input line, analyze_line returns g_code in
{0, 1, 2, 3}, needs_check holds exactly when g_code is nonzero, and
whenever g_code is 0 all three axis flags are 0 (axis tokens on a
non-motion line never set a flag). -/
theorem C10_analyze_line_invariant (l : Line) :
    (analyze_line l).g_code ∈ [0, 1, 2, 3] ∧
    ((analyze_line l).needs_check = true ↔ (analyze_line l).g_code ≠ 0) ∧
    ((analyze_line l).g_code = 0 →
      (analyze_line l).x_move = 0 ∧ (analyze_line l).y_move = 0 ∧
      (analyze_line l).z_move = 0) := by
  unfold analyze_line
  cases h1 : searchPos (matchAnalyzerG '1') l <;>
  cases h2 : searchPos (matchAnalyzerG '2') l <;>
  cases h3 : searchPos (matchAnalyzerG '3') l <;>
  simp [h1, h2, h3]

/-- Witness for C10 at a concrete input. -/
theorem C10_witness :
    (analyze_line "G00 X1 Y2 Z3".data).g_code ∈ [0, 1, 2, 3] ∧
    ((analyze_line "G00 X1 Y2 Z3".data).needs_check = true ↔
      (analyze_line "G00 X1 Y2 Z3".data).g_code ≠ 0) ∧
    ((analyze_line "G00 X1 Y2 Z3".data).g_code = 0 →
      (analyze_line "G00 X1 Y2 Z3".data).x_move = 0 ∧
      (analyze_line "G00 X1 Y2 Z3".data).y_move = 0 ∧
      (analyze_line "G00 X1 Y2 Z3".data).z_move = 0) :=
  C10_analyze_line_invariant "G00 X1 Y2 Z3".data

/-- C2: the number of safety blocks _process_content emits equals the
number of non-comment, non-blank lines the analyzer recognizes as a
G01/G02/G03 motion line; the output is the header, then each input line
in order preceded by its block exactly when recognized (so each block
immediately precedes the line it describes and no line is reordered),
then the footer; and a line whose only motion mnemonic is G00 is never
recognized, hence receives no block. -/
theorem C2_safety_block_count_and_order (content filename timestamp : Line) :
    (process_content content filename timestamp).safety_checks_added =
      (splitlinesDrop content).countP isRecognizedMotionLine ∧
    (process_lines content filename timestamp).result =
      procHeader filename timestamp ++
        (splitlinesDrop content).flatMap (fun l =>
          if isRecognizedMotionLine l
          then safetyBlock (analyze_line (pyStrip l)) ++ [l]
          else [l]) ∧
    (∀ l : Line, (onlyG00Motion l && isRecognizedMotionLine l) = false) := by
  refine ⟨?_, ?_, ?_⟩
  · have hpc : (process_content content filename timestamp).safety_checks_added
        = (process_lines content filename timestamp).safety_checks_added := rfl
    rw [hpc]
    unfold process_lines
    rw [procFold_count]
    simp
  · unfold process_lines
    rw [procFold_result]
    have hfun : (fun l => (procLine l).1) =
        (fun l => if isRecognizedMotionLine l
                  then safetyBlock (analyze_line (pyStrip l)) ++ [l]
                  else [l]) := by
      funext l
      rw [procLine_eq l]
      cases h : isRecognizedMotionLine l <;> simp [h]
    rw [hfun]
  · intro l
    cases hr : isRecognizedMotionLine l
    · simp
    · cases hg : onlyG00Motion l
      · simp
      · exfalso
        unfold isRecognizedMotionLine at hr
        simp only [Bool.and_eq_true, Bool.not_eq_true'] at hr
        have hn := hr.2
        unfold onlyG00Motion at hg
        simp only [Bool.and_eq_true, Bool.not_eq_true'] at hg
        unfold analyze_line at hn
        cases h1 : searchPos (matchAnalyzerG '1') (pyStrip l) <;>
        cases h2 : searchPos (matchAnalyzerG '2') (pyStrip l) <;>
        cases h3 : searchPos (matchAnalyzerG '3') (pyStrip l) <;>
          simp [h1, h2, h3] at hn
        all_goals first
        | (have hc := searchPos_mono _ _ (matchAnalyzerG_imp_matchGStar '1') _ h1;
           rw [hg.1.1.2] at hc; exact Bool.false_ne_true hc)
        | (have hc := searchPos_mono _ _ (matchAnalyzerG_imp_matchGStar '2') _ h2;
           rw [hg.1.2] at hc; exact Bool.false_ne_true hc)
        | (have hc := searchPos_mono _ _ (matchAnalyzerG_imp_matchGStar '3') _ h3;
           rw [hg.2] at hc; exact Bool.false_ne_true hc)

/-- C3: for every line recognized as a G01/G02/G03 motion command, the
Safety Annotator emits exactly five lines before it — '#600 = g' with
the motion digit g in {1,2,3}, then '#601 = x', '#602 = y', '#603 = z'
with each flag 1 exactly when the line matches that axis pattern
(always all three, in X, Y, Z order), then 'M150' — followed by the
original line unchanged; and the line 'G01 X5.0 Z-2.0' yields flags
(1, 0, 1). -/
theorem C3_safety_block_syntax (l : Line)
    (hc : isCommentOrBlankStripped (pyStrip l) = false)
    (h : (analyze_line (pyStrip l)).needs_check = true) :
    (procLine l).1 =
      ["#600 = ".data ++ natToStr (analyze_line (pyStrip l)).g_code,
       "#601 = ".data ++ natToStr (analyze_line (pyStrip l)).x_move,
       "#602 = ".data ++ natToStr (analyze_line (pyStrip l)).y_move,
       "#603 = ".data ++ natToStr (analyze_line (pyStrip l)).z_move,
       "M150".data, l] ∧
    (analyze_line (pyStrip l)).g_code ∈ [1, 2, 3] ∧
    (analyze_line (pyStrip l)).x_move =
      (if searchPos (matchSimpleAxis 'X' 'x') (pyStrip l) then 1 else 0) ∧
    (analyze_line (pyStrip l)).y_move =
      (if searchPos (matchSimpleAxis 'Y' 'y') (pyStrip l) then 1 else 0) ∧
    (analyze_line (pyStrip l)).z_move =
      (if searchPos (matchSimpleAxis 'Z' 'z') (pyStrip l) then 1 else 0) ∧
    analyze_line "G01 X5.0 Z-2.0".data =
      ⟨1, 1, 0, 1, true⟩ := by
  obtain ⟨hg, hx, hy, hz⟩ := analyze_needs (pyStrip l) h
  refine ⟨?_, hg, hx, hy, hz, by decide⟩
  unfold procLine
  simp [hc, h, safetyBlock]

/-- Witness for C3 at the claim's own example line. -/
theorem C3_witness :
    (procLine "G01 X5.0 Z-2.0".data).1 =
      ["#600 = ".data ++ natToStr (analyze_line (pyStrip "G01 X5.0 Z-2.0".data)).g_code,
       "#601 = ".data ++ natToStr (analyze_line (pyStrip "G01 X5.0 Z-2.0".data)).x_move,
       "#602 = ".data ++ natToStr (analyze_line (pyStrip "G01 X5.0 Z-2.0".data)).y_move,
       "#603 = ".data ++ natToStr (analyze_line (pyStrip "G01 X5.0 Z-2.0".data)).z_move,
       "M150".data, "G01 X5.0 Z-2.0".data] ∧
    (analyze_line (pyStrip "G01 X5.0 Z-2.0".data)).g_code ∈ [1, 2, 3] ∧
    (analyze_line (pyStrip "G01 X5.0 Z-2.0".data)).x_move =
      (if searchPos (matchSimpleAxis 'X' 'x') (pyStrip "G01 X5.0 Z-2.0".data) then 1 else 0) ∧
    (analyze_line (pyStrip "G01 X5.0 Z-2.0".data)).y_move =
      (if searchPos (matchSimpleAxis 'Y' 'y') (pyStrip "G01 X5.0 Z-2.0".data) then 1 else 0) ∧
    (analyze_line (pyStrip "G01 X5.0 Z-2.0".data)).z_move =
      (if searchPos (matchSimpleAxis 'Z' 'z') (pyStrip "G01 X5.0 Z-2.0".data) then 1 else 0) ∧
    analyze_line "G01 X5.0 Z-2.0".data = ⟨1, 1, 0, 1, true⟩ :=
  C3_safety_block_syntax "G01 X5.0 Z-2.0".data (by decide) (by decide)

/-! ### Lemmas for the mnemonic-canonicalization pass (C6) -/

theorem gsubBare_nonG (d c : Char) (t : Line) (hc : c ≠ 'G') :
    gsubBare d (c :: t) = c :: gsubBare d t := by
  cases t with
  | nil => rfl
  | cons c2 t2 => rw [gsubBare]; rw [if_neg hc]

theorem gsubBare_G_hit (d : Char) (t2 : Line) (hd : headIsDigit t2 = false) :
    gsubBare d ('G' :: d :: t2) = 'G' :: '0' :: d :: gsubBare d t2 := by
  rw [gsubBare]; simp [hd]

theorem gsubBare_G_miss (d c2 : Char) (t2 : Line)
    (h : (c2 = d && !headIsDigit t2) = false) :
    gsubBare d ('G' :: c2 :: t2) = 'G' :: gsubBare d (c2 :: t2) := by
  by_cases hc2 : c2 = d
  · have hdt : headIsDigit t2 = true := by
      cases hdt : headIsDigit t2 with
      | true => rfl
      | false => rw [hdt, hc2] at h; simp at h
    rw [gsubBare]; simp [hdt]
  · rw [gsubBare]; simp [hc2]

theorem gsubBare_head (d : Char) (t : Line) : (gsubBare d t).head? = t.head? := by
  cases t with
  | nil => rfl
  | cons c t' =>
    by_cases hc : c = 'G'
    · subst hc
      cases t' with
      | nil => rfl
      | cons c2 t2 =>
        by_cases h : (c2 = d && !headIsDigit t2) = true
        · obtain ⟨hc2, hd⟩ : c2 = d ∧ headIsDigit t2 = false := by
            simpa [Bool.and_eq_true, Bool.not_eq_true'] using h
          rw [hc2]
          rw [gsubBare_G_hit d t2 hd]
          rfl
        · rw [gsubBare_G_miss d c2 t2 (Bool.eq_false_iff.mpr h)]
          rfl
    · rw [gsubBare_nonG d c t' hc]
      rfl

theorem headIsDigit_head? (l : Line) :
    headIsDigit l = (match l.head? with | some c => c.isDigit | none => false) := by
  cases l <;> rfl

theorem headIsDigit_gsubBare (d : Char) (t : Line) :
    headIsDigit (gsubBare d t) = headIsDigit t := by
  rw [headIsDigit_head?, headIsDigit_head?, gsubBare_head]

theorem gsubAll_nonG (c : Char) (t : Line) (hc : c ≠ 'G') :
    gsubAll (c :: t) = c :: gsubAll t := by
  cases t with
  | nil => rfl
  | cons c2 t2 => rw [gsubAll]; rw [if_neg hc]

theorem gsubAll_G_hit (c2 : Char) (t2 : Line)
    (hm : isMotionDigit c2 = true) (hd : headIsDigit t2 = false) :
    gsubAll ('G' :: c2 :: t2) = 'G' :: '0' :: c2 :: gsubAll t2 := by
  rw [gsubAll]; simp [hm, hd]

theorem gsubAll_G_miss (c2 : Char) (t2 : Line)
    (h : (isMotionDigit c2 && !headIsDigit t2) = false) :
    gsubAll ('G' :: c2 :: t2) = 'G' :: gsubAll (c2 :: t2) := by
  by_cases hm : isMotionDigit c2 = true
  · have hdt : headIsDigit t2 = true := by
      cases hdt : headIsDigit t2 with
      | true => rfl
      | false => rw [hdt, hm] at h; simp at h
    rw [gsubAll]; simp [hdt]
  · have hm' : isMotionDigit c2 = false := Bool.eq_false_iff.mpr hm
    rw [gsubAll]; simp [hm']

theorem gsubBare_push_G (d : Char) (v : Line) (hv : v.head? = some 'G')
    (hd : ('G' : Char) ≠ d) : gsubBare d ('G' :: v) = 'G' :: gsubBare d v := by
  rcases v with _ | ⟨x, xs⟩
  · simp at hv
  · have hx : x = 'G' := by simpa using hv
    subst hx
    exact gsubBare_G_miss d 'G' xs (by simp [hd])

/-- The four sequential re.sub rewrites of _normalize_g_format compute
exactly the simultaneous one-pass canonicalization. -/
theorem gsubFour_eq_gsubAll (l : Line) : normalize_g_format l = gsubAll l := by
  suffices h : ∀ (n : Nat) (l : Line), l.length ≤ n → normalize_g_format l = gsubAll l from
    h l.length l le_rfl
  intro n
  induction n with
  | zero =>
    intro l hl
    rw [List.length_eq_zero.mp (Nat.le_zero.mp hl)]
    rfl
  | succ n ih =>
    intro l hl
    unfold normalize_g_format at *
    rcases l with _ | ⟨c, _ | ⟨c2, t2⟩⟩
    · rfl
    · rfl
    · have ht2 : t2.length ≤ n := by
        simp only [List.length_cons] at hl; omega
      have hct2 : (c2 :: t2).length ≤ n := by
        simp only [List.length_cons] at hl ⊢; omega
      by_cases hc : c = 'G'
      · subst hc
        by_cases hcg : c2 = 'G'
        · subst hcg
          have hGt2 : ('G' :: t2).length ≤ n := by
            simp only [List.length_cons] at hl ⊢; omega
          rw [gsubBare_G_miss '0' 'G' t2 (by simp)]
          rw [gsubBare_push_G '1' _ (by rw [gsubBare_head]; rfl) (by decide)]
          rw [gsubBare_push_G '2' _ (by rw [gsubBare_head, gsubBare_head]; rfl) (by decide)]
          rw [gsubBare_push_G '3' _
            (by rw [gsubBare_head, gsubBare_head, gsubBare_head]; rfl) (by decide)]
          rw [ih ('G' :: t2) hGt2]
          rw [gsubAll_G_miss 'G' t2 (by simp [isMotionDigit])]
        · by_cases hdt : headIsDigit t2 = true
          · rw [gsubBare_G_miss '0' c2 t2 (by rw [hdt]; simp)]
            rw [gsubBare_nonG '0' c2 t2 hcg]
            rw [gsubBare_G_miss '1' c2 _ (by rw [headIsDigit_gsubBare, hdt]; simp)]
            rw [gsubBare_nonG '1' c2 _ hcg]
            rw [gsubBare_G_miss '2' c2 _
              (by rw [headIsDigit_gsubBare, headIsDigit_gsubBare, hdt]; simp)]
            rw [gsubBare_nonG '2' c2 _ hcg]
            rw [gsubBare_G_miss '3' c2 _
              (by rw [headIsDigit_gsubBare, headIsDigit_gsubBare, headIsDigit_gsubBare, hdt];
                  simp)]
            rw [gsubBare_nonG '3' c2 _ hcg]
            rw [ih t2 ht2]
            rw [gsubAll_G_miss c2 t2 (by rw [hdt]; simp), gsubAll_nonG c2 t2 hcg]
          · have hdf : headIsDigit t2 = false := Bool.eq_false_iff.mpr hdt
            by_cases h0 : c2 = '0'
            · subst h0
              rw [gsubBare_G_hit '0' t2 hdf]
              rw [gsubBare_G_miss '1' '0' _ (by simp)]
              rw [gsubBare_nonG '1' '0' _ (by decide), gsubBare_nonG '1' '0' _ (by decide)]
              rw [gsubBare_G_miss '2' '0' _ (by simp)]
              rw [gsubBare_nonG '2' '0' _ (by decide), gsubBare_nonG '2' '0' _ (by decide)]
              rw [gsubBare_G_miss '3' '0' _ (by simp)]
              rw [gsubBare_nonG '3' '0' _ (by decide), gsubBare_nonG '3' '0' _ (by decide)]
              rw [ih t2 ht2]
              rw [gsubAll_G_hit '0' t2 (by decide) hdf]
            · by_cases h1 : c2 = '1'
              · subst h1
                rw [gsubBare_G_miss '0' '1' t2 (by simp)]
                rw [gsubBare_nonG '0' '1' t2 (by decide)]
                rw [gsubBare_G_hit '1' _ (by rw [headIsDigit_gsubBare]; exact hdf)]
                rw [gsubBare_G_miss '2' '0' _ (by simp)]
                rw [gsubBare_nonG '2' '0' _ (by decide), gsubBare_nonG '2' '1' _ (by decide)]
                rw [gsubBare_G_miss '3' '0' _ (by simp)]
                rw [gsubBare_nonG '3' '0' _ (by decide), gsubBare_nonG '3' '1' _ (by decide)]
                rw [ih t2 ht2]
                rw [gsubAll_G_hit '1' t2 (by decide) hdf]
              · by_cases h2 : c2 = '2'
                · subst h2
                  rw [gsubBare_G_miss '0' '2' t2 (by simp)]
                  rw [gsubBare_nonG '0' '2' t2 (by decide)]
                  rw [gsubBare_G_miss '1' '2' _ (by simp)]
                  rw [gsubBare_nonG '1' '2' _ (by decide)]
                  rw [gsubBare_G_hit '2' _
                    (by rw [headIsDigit_gsubBare, headIsDigit_gsubBare]; exact hdf)]
                  rw [gsubBare_G_miss '3' '0' _ (by simp)]
                  rw [gsubBare_nonG '3' '0' _ (by decide), gsubBare_nonG '3' '2' _ (by decide)]
                  rw [ih t2 ht2]
                  rw [gsubAll_G_hit '2' t2 (by decide) hdf]
                · by_cases h3 : c2 = '3'
                  · subst h3
                    rw [gsubBare_G_miss '0' '3' t2 (by simp)]
                    rw [gsubBare_nonG '0' '3' t2 (by decide)]
                    rw [gsubBare_G_miss '1' '3' _ (by simp)]
                    rw [gsubBare_nonG '1' '3' _ (by decide)]
                    rw [gsubBare_G_miss '2' '3' _ (by simp)]
                    rw [gsubBare_nonG '2' '3' _ (by decide)]
                    rw [gsubBare_G_hit '3' _
                      (by rw [headIsDigit_gsubBare, headIsDigit_gsubBare,
                              headIsDigit_gsubBare];
                          exact hdf)]
                    rw [ih t2 ht2]
                    rw [gsubAll_G_hit '3' t2 (by decide) hdf]
                  · rw [gsubBare_G_miss '0' c2 t2 (by simp [h0])]
                    rw [gsubBare_nonG '0' c2 t2 hcg]
                    rw [gsubBare_G_miss '1' c2 _ (by simp [h1])]
                    rw [gsubBare_nonG '1' c2 _ hcg]
                    rw [gsubBare_G_miss '2' c2 _ (by simp [h2])]
                    rw [gsubBare_nonG '2' c2 _ hcg]
                    rw [gsubBare_G_miss '3' c2 _ (by simp [h3])]
                    rw [gsubBare_nonG '3' c2 _ hcg]
                    rw [ih t2 ht2]
                    rw [gsubAll_G_miss c2 t2
                      (by simp [isMotionDigit, h0, h1, h2, h3])]
                    rw [gsubAll_nonG c2 t2 hcg]
      · rw [gsubBare_nonG '0' c _ hc, gsubBare_nonG '1' c _ hc,
            gsubBare_nonG '2' c _ hc, gsubBare_nonG '3' c _ hc,
            gsubAll_nonG c _ hc, ih (c2 :: t2) hct2]

/-- C6: on every line, the Normalizer's G-format pass rewrites each
occurrence of G0, G1, G2, G3 not followed by another digit into G00,
G01, G02, G03 and copies every other character verbatim (the
simultaneous one-pass rewrite gsubAll); in particular G10, G17 and G90
are never altered. -/
theorem C6_mnemonic_canonicalization :
    (∀ l : Line, normalize_g_format l = gsubAll l) ∧
    normalize_g_format "G0 G1 G2 G3".data = "G00 G01 G02 G03".data ∧
    normalize_g_format "G10 G17 G90".data = "G10 G17 G90".data ∧
    normalize_g_format "N5 G1 X2.5 G10".data = "N5 G01 X2.5 G10".data :=
  ⟨gsubFour_eq_gsubAll, by decide, by decide, by decide⟩

/-! ### Lemmas for coordinate removal and position tracking -/

theorem update_modal_pos_get (l : Line) (s : NormState) (a : Axis) :
    (update_modal_state l s).1.current_position.get a =
      (if searchPos matchTool l then none else s.current_position.get a) := by
  unfold update_modal_state
  by_cases ht : searchPos matchTool l = true
  · simp only [ht, if_true]
    cases a <;> rfl
  · simp only [Bool.eq_false_iff.mpr ht, Bool.false_eq_true, if_false]

/-- The modal component after _update_modal_state depends only on the
line and the previous modal state — the tool-change position reset
leaves every modal field untouched. -/
theorem update_modal_modal (l : Line) (s : NormState) :
    (update_modal_state l s).1.current_modal_state =
      ⟨((searchMotion l).map some).getD s.current_modal_state.motion,
       (searchPlane l).getD s.current_modal_state.plane,
       (searchUnits l).getD s.current_modal_state.units,
       (searchDistance l).getD s.current_modal_state.distance,
       (searchFeedrate l).getD s.current_modal_state.feedrate⟩ := by
  unfold update_modal_state
  by_cases ht : searchPos matchTool l = true
  · simp only [ht, if_true]
  · simp only [Bool.eq_false_iff.mpr ht, Bool.false_eq_true, if_false]

theorem coordsEmpty_get (c : Coords) (h : coordsEmpty c = true) (a : Axis) :
    c.get a = none := by
  unfold coordsEmpty at h
  simp only [Bool.and_eq_true, Option.isNone_iff_eq_none] at h
  cases a <;> simp [Coords.get, h.1.1, h.1.2, h.2]

theorem handle_pos_get (l : Line) (coords : Coords) (mu : Bool) (s : NormState) (a : Axis) :
    (handle_coordinates l coords mu s).state.current_position.get a =
      updCoord (coords.get a) (s.current_position.get a) := by
  unfold handle_coordinates
  by_cases he : coordsEmpty coords = true
  · simp only [he, if_true]
    rw [coordsEmpty_get coords he a]
    rfl
  · simp only [Bool.eq_false_iff.mpr he, Bool.false_eq_true, if_false]
    cases a <;> rfl

theorem normalizeLineFull_comment (s : NormState) (l : Line)
    (h : isCommentOrBlankStripped (pyStrip l) = true) :
    normalizeLineFull s l = ⟨l, s, []⟩ := by
  unfold normalizeLineFull
  simp only [h, if_true]

/-- Per-axis position after one non-comment line: the value the line
carried if any, else unknown after a tool change, else unchanged. -/
theorem pos_after_line (s : NormState) (l : Line) (a : Axis)
    (h : isCommentOrBlankStripped (pyStrip l) = false) :
    (normalizeLineFull s l).state.current_position.get a =
      updCoord ((extract_coordinates (normalize_g_format (pyStrip l))).get a)
        (if searchPos matchTool (normalize_g_format (pyStrip l)) then none
         else s.current_position.get a) := by
  unfold normalizeLineFull
  simp only [h, Bool.false_eq_true, if_false]
  by_cases hce : coordsEmpty (extract_coordinates (normalize_g_format (pyStrip l))) = true
  · simp only [hce, if_true]
    rw [coordsEmpty_get _ hce a]
    show (update_modal_state (normalize_g_format (pyStrip l)) s).1.current_position.get a = _
    rw [update_modal_pos_get]
    rfl
  · simp only [Bool.eq_false_iff.mpr hce, Bool.false_eq_true, if_false]
    rw [handle_pos_get]
    rw [update_modal_pos_get]

theorem removalStep_removed_mem (ax : Char) (cv pv : Option Q) (acc : RemovalResult)
    (c : Char) (h : c ∈ (removalStep ax cv pv acc).removed) :
    c ∈ acc.removed ∨ (c = ax ∧ isRedundant pv cv = true) := by
  unfold removalStep at h
  by_cases hr : isRedundant pv cv = true
  · rw [if_pos hr] at h
    by_cases he : subAxis ax acc.line = acc.line
    · rw [if_pos he] at h
      exact Or.inl h
    · rw [if_neg he] at h
      simp only [List.mem_append, List.mem_singleton] at h
      rcases h with h | h
      · exact Or.inl h
      · exact Or.inr ⟨h, hr⟩
  · rw [if_neg hr] at h
    exact Or.inl h

/-- A recorded removal implies the axis position was known and the
extracted value was inside the epsilon (as floats). -/
theorem handle_removed_redundant (l : Line) (coords : Coords) (mu : Bool)
    (s : NormState) (a : Axis)
    (h : a.char ∈ (handle_coordinates l coords mu s).removed) :
    ∃ p v, s.current_position.get a = some p ∧ coords.get a = some v ∧
      qLt (qAbs (floatSub v p)) eps64 = true := by
  unfold handle_coordinates at h
  by_cases he : coordsEmpty coords = true
  · rw [if_pos he] at h
    simp at h
  · rw [if_neg (by simp [he])] at h
    have h' : a.char ∈ (removalStage s coords l).removed := h
    unfold removalStage at h'
    by_cases hg : (s.current_position.x.isSome || s.current_position.y.isSome ||
        s.current_position.z.isSome) = true
    · rw [if_pos hg] at h'
      have hz := removalStep_removed_mem 'Z' coords.z s.current_position.z _ _ h'
      have key : (a.char = 'X' ∧ isRedundant s.current_position.x coords.x = true) ∨
          (a.char = 'Y' ∧ isRedundant s.current_position.y coords.y = true) ∨
          (a.char = 'Z' ∧ isRedundant s.current_position.z coords.z = true) := by
        rcases hz with hy | hz
        · have hy2 := removalStep_removed_mem 'Y' coords.y s.current_position.y _ _ hy
          rcases hy2 with hx | hy2
          · have hx2 := removalStep_removed_mem 'X' coords.x s.current_position.x _ _ hx
            rcases hx2 with hbase | hx2
            · simp at hbase
            · exact Or.inl hx2
          · exact Or.inr (Or.inl hy2)
        · exact Or.inr (Or.inr hz)
      have red : isRedundant (s.current_position.get a) (coords.get a) = true := by
        rcases key with ⟨hch, hred⟩ | ⟨hch, hred⟩ | ⟨hch, hred⟩ <;>
          cases a <;> simp [Axis.char] at hch <;>
          simpa [Position.get, Coords.get] using hred
      unfold isRedundant at red
      rcases hv : coords.get a with _ | v
      · rw [hv] at red; simp at red
      · rcases hp : s.current_position.get a with _ | p
        · rw [hv, hp] at red; simp at red
        · rw [hv, hp] at red
          exact ⟨p, v, rfl, rfl, red⟩
    · rw [if_neg (by simp [hg])] at h'
      simp at h'

/-- An axis whose position is unknown is never recorded as removed. -/
theorem not_removed_of_pos_none (l : Line) (coords : Coords) (mu : Bool)
    (s : NormState) (a : Axis) (h : s.current_position.get a = none) :
    a.char ∉ (handle_coordinates l coords mu s).removed := by
  intro hmem
  obtain ⟨p, v, hp, _, _⟩ := handle_removed_redundant l coords mu s a hmem
  rw [h] at hp
  exact Option.noConfusion hp

theorem not_removed_line_of_pos_none (s : NormState) (l : Line) (a : Axis)
    (h : s.current_position.get a = none) :
    a.char ∉ (normalizeLineFull s l).removed := by
  by_cases hc : isCommentOrBlankStripped (pyStrip l) = true
  · rw [normalizeLineFull_comment s l hc]
    simp
  · unfold normalizeLineFull
    simp only [Bool.eq_false_iff.mpr hc, Bool.false_eq_true, if_false]
    by_cases hce : coordsEmpty (extract_coordinates (normalize_g_format (pyStrip l))) = true
    · simp only [hce, if_true]
      simp
    · simp only [Bool.eq_false_iff.mpr hce, Bool.false_eq_true, if_false]
      apply not_removed_of_pos_none
      rw [update_modal_pos_get]
      by_cases ht : searchPos matchTool (normalize_g_format (pyStrip l)) = true
      · rw [if_pos ht]
      · rw [if_neg (by simp [ht]), h]

theorem contentStep_state (acc : ContentAcc) (l : Line) :
    (contentStep acc l).state =
      (if (pyStrip l).isEmpty then acc.state else (normalizeLineFull acc.state l).state) := by
  unfold contentStep normalize_line
  by_cases hb : (pyStrip l).isEmpty = true
  · rw [if_pos hb, if_pos hb]
  · rw [if_neg (by simp [hb]), if_neg (by simp [hb])]

/-- Position stays unknown along the loop while no processed line
carries a coordinate for the axis. -/
theorem fold_pos_none (ls : List Line) (acc : ContentAcc) (a : Axis)
    (hacc : acc.state.current_position.get a = none)
    (hls : ∀ l ∈ ls, isCommentOrBlankStripped (pyStrip l) = false →
      (extract_coordinates (normalize_g_format (pyStrip l))).get a = none) :
    (ls.foldl contentStep acc).state.current_position.get a = none := by
  induction ls generalizing acc with
  | nil => exact hacc
  | cons l ls ih =>
    rw [List.foldl_cons]
    apply ih
    · rw [contentStep_state]
      by_cases hb : (pyStrip l).isEmpty = true
      · rw [if_pos hb]; exact hacc
      · rw [if_neg (by simp [hb])]
        by_cases hc : isCommentOrBlankStripped (pyStrip l) = true
        · rw [normalizeLineFull_comment acc.state l hc]; exact hacc
        · rw [pos_after_line acc.state l a (Bool.eq_false_iff.mpr hc)]
          rw [hls l (List.mem_cons_self l ls) (Bool.eq_false_iff.mpr hc)]
          by_cases ht : searchPos matchTool (normalize_g_format (pyStrip l)) = true
          · rw [if_pos ht]; rfl
          · rw [if_neg (by simp [ht]), hacc]; rfl
    · intro l' hl' hcl'
      exact hls l' (List.mem_cons_of_mem l hl') hcl'

theorem isRedundant_none_val (pv : Option Q) : isRedundant pv none = false := by
  unfold isRedundant
  rcases pv <;> rfl

theorem isRedundant_none_pos (cv : Option Q) : isRedundant none cv = false := by
  unfold isRedundant
  rcases cv <;> rfl

theorem removalStep_removed_eq (ax : Char) (cv pv : Option Q) (acc : RemovalResult) :
    (removalStep ax cv pv acc).removed =
      (if isRedundant pv cv && decide (subAxis ax acc.line ≠ acc.line)
       then acc.removed ++ [ax] else acc.removed) := by
  unfold removalStep
  by_cases hr : isRedundant pv cv = true
  · rw [if_pos hr]
    by_cases he : subAxis ax acc.line = acc.line
    · rw [if_pos he]
      simp [hr, he]
    · rw [if_neg he]
      simp [hr, he]
  · rw [if_neg hr]
    simp [Bool.eq_false_iff.mpr hr]

theorem removalStep_line_eq (ax : Char) (cv pv : Option Q) (acc : RemovalResult) :
    (removalStep ax cv pv acc).line =
      (if isRedundant pv cv then subAxis ax acc.line else acc.line) := by
  unfold removalStep
  by_cases hr : isRedundant pv cv = true
  · rw [if_pos hr, if_pos hr]
    by_cases he : subAxis ax acc.line = acc.line
    · rw [if_pos he]
    · rw [if_neg he]
  · rw [if_neg hr, if_neg hr]

theorem removalStep_mem_other (ax c : Char) (cv pv : Option Q) (acc : RemovalResult)
    (hne : c ≠ ax) :
    (c ∈ (removalStep ax cv pv acc).removed ↔ c ∈ acc.removed) := by
  rw [removalStep_removed_eq]
  by_cases h : (isRedundant pv cv && decide (subAxis ax acc.line ≠ acc.line)) = true
  · rw [if_pos h]
    simp [hne]
  · rw [if_neg h]

theorem removalStep_mem_self (ax : Char) (cv pv : Option Q) (acc : RemovalResult)
    (hnotin : ax ∉ acc.removed) :
    (ax ∈ (removalStep ax cv pv acc).removed ↔
      (isRedundant pv cv = true ∧ subAxis ax acc.line ≠ acc.line)) := by
  rw [removalStep_removed_eq]
  by_cases hr : isRedundant pv cv = true
  · by_cases he : subAxis ax acc.line = acc.line
    · rw [if_neg (by simp [he])]
      simp [hnotin, he]
    · rw [if_pos (by simp [hr, he])]
      simp [hr, he]
  · rw [if_neg (by simp [Bool.eq_false_iff.mpr hr])]
    simp [hnotin, hr]

theorem handle_removed_eq (l : Line) (coords : Coords) (mu : Bool) (s : NormState) :
    (handle_coordinates l coords mu s).removed =
      (if coordsEmpty coords then [] else (removalStage s coords l).removed) := by
  unfold handle_coordinates
  by_cases he : coordsEmpty coords = true
  · rw [if_pos he, if_pos he]
  · rw [if_neg he, if_neg he]

/-- Exact characterization of the recorded X removal: position known,
value inside epsilon, and the case-sensitive substitution changed the
text. -/
theorem handle_removed_iff_X (l : Line) (coords : Coords) (mu : Bool) (s : NormState) :
    ('X' ∈ (handle_coordinates l coords mu s).removed ↔
      (isRedundant s.current_position.x coords.x = true ∧ subAxis 'X' l ≠ l)) := by
  rw [handle_removed_eq]
  by_cases he : coordsEmpty coords = true
  · rw [if_pos he]
    have hx : coords.x = none := coordsEmpty_get coords he Axis.X
    rw [hx, isRedundant_none_val]
    simp
  · rw [if_neg he]
    unfold removalStage
    by_cases hg : (s.current_position.x.isSome || s.current_position.y.isSome ||
        s.current_position.z.isSome) = true
    · rw [if_pos hg]
      rw [removalStep_mem_other 'Z' 'X' _ _ _ (by decide)]
      rw [removalStep_mem_other 'Y' 'X' _ _ _ (by decide)]
      rw [removalStep_mem_self 'X' _ _ _ (by simp)]
    · rw [if_neg hg]
      have hx : s.current_position.x = none := by
        cases hpx : s.current_position.x with
        | none => rfl
        | some v => exact absurd (by rw [hpx]; simp) hg
      rw [hx, isRedundant_none_pos]
      simp

/-- Exact characterization of the recorded Y removal; its substitution
applies to the text left by the X step. -/
theorem handle_removed_iff_Y (l : Line) (coords : Coords) (mu : Bool) (s : NormState) :
    ('Y' ∈ (handle_coordinates l coords mu s).removed ↔
      (isRedundant s.current_position.y coords.y = true ∧
        subAxis 'Y' (if isRedundant s.current_position.x coords.x
            then subAxis 'X' l else l) ≠
          (if isRedundant s.current_position.x coords.x then subAxis 'X' l else l))) := by
  rw [handle_removed_eq]
  by_cases he : coordsEmpty coords = true
  · rw [if_pos he]
    have hy : coords.y = none := coordsEmpty_get coords he Axis.Y
    rw [hy, isRedundant_none_val]
    simp
  · rw [if_neg he]
    unfold removalStage
    by_cases hg : (s.current_position.x.isSome || s.current_position.y.isSome ||
        s.current_position.z.isSome) = true
    · rw [if_pos hg]
      have hnotin : 'Y' ∉ (removalStep 'X' coords.x s.current_position.x ⟨l, []⟩).removed := by
        rw [removalStep_removed_eq]
        split <;> simp
      rw [removalStep_mem_other 'Z' 'Y' _ _ _ (by decide)]
      rw [removalStep_mem_self 'Y' _ _ _ hnotin]
      rw [removalStep_line_eq]
    · rw [if_neg hg]
      have hy : s.current_position.y = none := by
        cases hpy : s.current_position.y with
        | none => rfl
        | some v => exact absurd (by rw [hpy]; simp) hg
      rw [hy, isRedundant_none_pos]
      simp

/-- Exact characterization of the recorded Z removal; its substitution
applies to the text left by the X and Y steps. -/
theorem handle_removed_iff_Z (l : Line) (coords : Coords) (mu : Bool) (s : NormState) :
    ('Z' ∈ (handle_coordinates l coords mu s).removed ↔
      (isRedundant s.current_position.z coords.z = true ∧
        subAxis 'Z'
            (if isRedundant s.current_position.y coords.y
             then subAxis 'Y' (if isRedundant s.current_position.x coords.x
                then subAxis 'X' l else l)
             else (if isRedundant s.current_position.x coords.x
                then subAxis 'X' l else l)) ≠
          (if isRedundant s.current_position.y coords.y
           then subAxis 'Y' (if isRedundant s.current_position.x coords.x
              then subAxis 'X' l else l)
           else (if isRedundant s.current_position.x coords.x
              then subAxis 'X' l else l)))) := by
  rw [handle_removed_eq]
  by_cases he : coordsEmpty coords = true
  · rw [if_pos he]
    have hz : coords.z = none := coordsEmpty_get coords he Axis.Z
    rw [hz, isRedundant_none_val]
    simp
  · rw [if_neg he]
    unfold removalStage
    by_cases hg : (s.current_position.x.isSome || s.current_position.y.isSome ||
        s.current_position.z.isSome) = true
    · rw [if_pos hg]
      have h1 : 'Z' ∉ (removalStep 'X' coords.x s.current_position.x ⟨l, []⟩).removed := by
        rw [removalStep_removed_eq]
        split <;> simp
      have hnotin : 'Z' ∉ (removalStep 'Y' coords.y s.current_position.y
          (removalStep 'X' coords.x s.current_position.x ⟨l, []⟩)).removed := by
        rw [removalStep_removed_eq]
        split <;> simp [h1]
      rw [removalStep_mem_self 'Z' _ _ _ hnotin]
      rw [removalStep_line_eq, removalStep_line_eq]
    · rw [if_neg hg]
      have hz : s.current_position.z = none := by
        cases hpz : s.current_position.z with
        | none => rfl
        | some v => exact absurd (by rw [hpz]; simp) hg
      rw [hz, isRedundant_none_pos]
      simp

/-- C4 counterexample: the claim's 'exactly when' fails because
coordinate extraction is case-insensitive while the removal re.sub is
case-sensitive: with X known at 5, the lowercase line 'x5' meets the
claim's condition (value 5 extracted for X, difference 0 inside the
epsilon) yet nothing is removed — the token survives verbatim in the
output. -/
theorem C4_counterexample :
    isRedundant
      (normalizeLineFull initialState "G1 X5\n".data).state.current_position.x
      (extract_coordinates (normalize_g_format (pyStrip "x5\n".data))).x = true ∧
    (normalizeLineFull (normalizeLineFull initialState "G1 X5\n".data).state
      "x5\n".data).removed = [] ∧
    (normalizeLineFull (normalizeLineFull initialState "G1 X5\n".data).state
      "x5\n".data).line = "G01x5\n".data ∧
    subAxis 'X' "x5".data = "x5".data := by decide

/-- C4 (amended): during normalization a removal is recorded for an
axis exactly when its position is already known, the (float)
difference between the line's extracted value and that position is
inside the epsilon 1e-4, and the case-sensitive textual substitution
for that axis actually changes the line — extraction is
case-insensitive but the substitution is not, so a lowercase token can
satisfy the condition yet never be removed; the X, Y, Z substitutions
apply in that order, each to the text left by the previous one.  An
axis with unknown position is never removed, so the first coordinate
any axis carries in a program is never removed; and on the claim's
examples, with X known at 10.0 the line 'X10.0 Y5.0' loses its X token
and keeps its Y token, and 'X10.0001' is treated as redundant and
removed (binary64 arithmetic puts its difference below 1e-4). -/
theorem C4_coordinate_removal :
    (∀ (s : NormState) (l : Line) (coords : Coords) (mu : Bool) (a : Axis),
      a.char ∈ (handle_coordinates l coords mu s).removed →
      ∃ p v, s.current_position.get a = some p ∧ coords.get a = some v ∧
        qLt (qAbs (floatSub v p)) eps64 = true) ∧
    (∀ (s : NormState) (l : Line) (a : Axis),
      s.current_position.get a = none → a.char ∉ (normalizeLineFull s l).removed) ∧
    (∀ (content filename timestamp l : Line) (k : Nat) (a : Axis),
      (∀ l' ∈ (splitlinesKeep content).take k,
        isCommentOrBlankStripped (pyStrip l') = false →
        (extract_coordinates (normalize_g_format (pyStrip l'))).get a = none) →
      a.char ∉ (normalizeLineFull
        (((splitlinesKeep content).take k).foldl contentStep
          ⟨normHeader filename timestamp, initialState, 0, 0, 0, 0⟩).state l).removed) ∧
    ((normalizeLineFull (normalizeLineFull initialState "G1 X10.0\n".data).state
        "X10.0 Y5.0\n".data).line = "G01 Y5.0\n".data ∧
     (normalizeLineFull (normalizeLineFull initialState "G1 X10.0\n".data).state
        "X10.0 Y5.0\n".data).removed = ['X']) ∧
    (normalizeLineFull (normalizeLineFull initialState "X10.0\n".data).state
        "X10.0001\n".data).removed = ['X'] ∧
    (∀ pv cv : Option Q,
      isRedundant pv cv = true ↔
        ∃ p v, pv = some p ∧ cv = some v ∧
          qLt (qAbs (floatSub v p)) eps64 = true) ∧
    (∀ (s : NormState) (l : Line) (coords : Coords) (mu : Bool),
      ('X' ∈ (handle_coordinates l coords mu s).removed ↔
        (isRedundant s.current_position.x coords.x = true ∧ subAxis 'X' l ≠ l)) ∧
      ('Y' ∈ (handle_coordinates l coords mu s).removed ↔
        (isRedundant s.current_position.y coords.y = true ∧
          subAxis 'Y' (if isRedundant s.current_position.x coords.x
              then subAxis 'X' l else l) ≠
            (if isRedundant s.current_position.x coords.x then subAxis 'X' l else l))) ∧
      ('Z' ∈ (handle_coordinates l coords mu s).removed ↔
        (isRedundant s.current_position.z coords.z = true ∧
          subAxis 'Z'
              (if isRedundant s.current_position.y coords.y
               then subAxis 'Y' (if isRedundant s.current_position.x coords.x
                  then subAxis 'X' l else l)
               else (if isRedundant s.current_position.x coords.x
                  then subAxis 'X' l else l)) ≠
            (if isRedundant s.current_position.y coords.y
             then subAxis 'Y' (if isRedundant s.current_position.x coords.x
                then subAxis 'X' l else l)
             else (if isRedundant s.current_position.x coords.x
                then subAxis 'X' l else l))))) := by
  refine ⟨?_, ?_, ?_, ⟨by decide, by decide⟩, by decide, ?_, ?_⟩
  · intro s l coords mu a h
    exact handle_removed_redundant l coords mu s a h
  · intro s l a h
    exact not_removed_line_of_pos_none s l a h
  · intro content filename timestamp l k a hno
    apply not_removed_line_of_pos_none
    apply fold_pos_none
    · cases a <;> rfl
    · exact hno
  · intro pv cv
    constructor
    · intro h
      rcases hcv : cv with _ | v
      · rw [hcv, isRedundant_none_val] at h
        exact absurd h (by simp)
      · rcases hpv : pv with _ | p
        · rw [hpv, hcv, isRedundant_none_pos] at h
          exact absurd h (by simp)
        · rw [hpv, hcv] at h
          exact ⟨p, v, rfl, rfl, h⟩
    · rintro ⟨p, v, rfl, rfl, h⟩
      exact h
  · intro s l coords mu
    exact ⟨handle_removed_iff_X l coords mu s, handle_removed_iff_Y l coords mu s,
      handle_removed_iff_Z l coords mu s⟩

/-- Witness for C4 at a concrete program prefix: after the single line
'G1 X20.0' (which carries no Y coordinate), Y is never removed from
the next line. -/
theorem C4_witness :
    'Y' ∉ (normalizeLineFull
      (((splitlinesKeep "G1 X20.0\n".data).take 1).foldl contentStep
        ⟨normHeader "f".data "t".data, initialState, 0, 0, 0, 0⟩).state
      "G1 X20.0 Y20.0\n".data).removed :=
  (C4_coordinate_removal.2.2.1 "G1 X20.0\n".data "f".data "t".data
    "G1 X20.0 Y20.0\n".data 1 Axis.Y) (by decide)

/-- C8 counterexample: the claim says an axis position is unchanged
whenever the line carries no coordinate for it, but a tool-change line
carrying no X coordinate wipes a known X position to unknown. -/
theorem C8_counterexample :
    (normalizeLineFull initialState "G1 X7\n".data).state.current_position.x =
      some (fl ⟨7, 1⟩) ∧
    (extract_coordinates (normalize_g_format (pyStrip "T2M6\n".data))).x = none ∧
    (normalizeLineFull (normalizeLineFull initialState "G1 X7\n".data).state
      "T2M6\n".data).state.current_position.x = none ∧
    (some (fl ⟨7, 1⟩) : Option Q) ≠ none := by decide

/-- C8 (amended): after _normalize_line processes a non-comment line,
each axis position equals the numeric value (as a float) the processed
line carried for that axis whenever it carried one — even when the
token was removed as redundant — and otherwise is unknown when the
line matched the tool-change pattern and unchanged when it did not;
comment-only and blank lines are emitted verbatim and leave Position
and ModalState untouched. -/
theorem C8_amended_position_tracking (s : NormState) (l : Line) :
    (isCommentOrBlankStripped (pyStrip l) = false →
      ∀ a : Axis,
        (normalizeLineFull s l).state.current_position.get a =
          updCoord ((extract_coordinates (normalize_g_format (pyStrip l))).get a)
            (if searchPos matchTool (normalize_g_format (pyStrip l)) then none
             else s.current_position.get a)) ∧
    (isCommentOrBlankStripped (pyStrip l) = true →
      normalizeLineFull s l = ⟨l, s, []⟩) :=
  ⟨fun h a => pos_after_line s l a h, normalizeLineFull_comment s l⟩

/-- Witness for C8 (amended) at a concrete line and state. -/
theorem C8_amended_witness :
    (normalizeLineFull initialState "G1 X3\n".data).state.current_position.get Axis.X =
      updCoord ((extract_coordinates (normalize_g_format (pyStrip "G1 X3\n".data))).get Axis.X)
        (if searchPos matchTool (normalize_g_format (pyStrip "G1 X3\n".data)) then none
         else initialState.current_position.get Axis.X) :=
  (C8_amended_position_tracking initialState "G1 X3\n".data).1 (by decide) Axis.X

/-- C7 counterexample: the tool-change line 'T1M6 X5' re-seeds X with
5 after the reset, so the very next 'X5' is removed as redundant,
against the claim that no coordinate after a tool-change line is ever
treated as redundant. -/
theorem C7_counterexample :
    searchPos matchTool (normalize_g_format (pyStrip "T1M6 X5\n".data)) = true ∧
    (normalizeLineFull (normalizeLineFull initialState "T1M6 X5\n".data).state
      "X5\n".data).removed = ['X'] := by decide

/-- C7 (amended): a line matching the tool-change pattern has Position
reset to all-unknown inside _update_modal_state while every modal
field is computed exactly as without the reset; an axis the
tool-change line itself carries no coordinate for is still unknown
after the whole line, so the next coordinate on such an axis is never
removed as redundant — but axes the tool-change line does carry are
re-seeded by its values. -/
theorem C7_amended_tool_change_reset (s : NormState) (l : Line)
    (hc : isCommentOrBlankStripped (pyStrip l) = false)
    (ht : searchPos matchTool (normalize_g_format (pyStrip l)) = true) :
    (update_modal_state (normalize_g_format (pyStrip l)) s).1.current_position =
      ⟨none, none, none⟩ ∧
    (update_modal_state (normalize_g_format (pyStrip l)) s).1.current_modal_state =
      ⟨((searchMotion (normalize_g_format (pyStrip l))).map some).getD
          s.current_modal_state.motion,
       (searchPlane (normalize_g_format (pyStrip l))).getD s.current_modal_state.plane,
       (searchUnits (normalize_g_format (pyStrip l))).getD s.current_modal_state.units,
       (searchDistance (normalize_g_format (pyStrip l))).getD s.current_modal_state.distance,
       (searchFeedrate (normalize_g_format (pyStrip l))).getD s.current_modal_state.feedrate⟩ ∧
    (∀ a : Axis,
      (extract_coordinates (normalize_g_format (pyStrip l))).get a = none →
      (normalizeLineFull s l).state.current_position.get a = none ∧
      ∀ l2 : Line,
        a.char ∉ (normalizeLineFull (normalizeLineFull s l).state l2).removed) := by
  refine ⟨?_, update_modal_modal _ s, ?_⟩
  · unfold update_modal_state
    rw [if_pos ht]
  · intro a hext
    have hpos : (normalizeLineFull s l).state.current_position.get a = none := by
      rw [pos_after_line s l a hc, hext, if_pos ht]
      rfl
    exact ⟨hpos, fun l2 => not_removed_line_of_pos_none _ l2 a hpos⟩

/-- Witness for C7 (amended) on a plain tool-change line. -/
theorem C7_amended_witness :
    (update_modal_state (normalize_g_format (pyStrip "T1M6\n".data)) initialState).1.current_position =
      ⟨none, none, none⟩ ∧
    (update_modal_state (normalize_g_format (pyStrip "T1M6\n".data)) initialState).1.current_modal_state =
      ⟨((searchMotion (normalize_g_format (pyStrip "T1M6\n".data))).map some).getD
          initialState.current_modal_state.motion,
       (searchPlane (normalize_g_format (pyStrip "T1M6\n".data))).getD
          initialState.current_modal_state.plane,
       (searchUnits (normalize_g_format (pyStrip "T1M6\n".data))).getD
          initialState.current_modal_state.units,
       (searchDistance (normalize_g_format (pyStrip "T1M6\n".data))).getD
          initialState.current_modal_state.distance,
       (searchFeedrate (normalize_g_format (pyStrip "T1M6\n".data))).getD
          initialState.current_modal_state.feedrate⟩ ∧
    (∀ a : Axis,
      (extract_coordinates (normalize_g_format (pyStrip "T1M6\n".data))).get a = none →
      (normalizeLineFull initialState "T1M6\n".data).state.current_position.get a = none ∧
      ∀ l2 : Line,
        a.char ∉ (normalizeLineFull
          (normalizeLineFull initialState "T1M6\n".data).state l2).removed) :=
  C7_amended_tool_change_reset initialState "T1M6\n".data (by decide) (by decide)

/-- C5 counterexample: with ModalState.motion unset, the Normalizer
still inserts a mnemonic (the default G01), against the claim that no
mnemonic is inserted when motion is unset. -/
theorem C5_counterexample :
    initialState.current_modal_state.motion = none ∧
    (normalize_line initialState "X5\n".data).1 = "G01X5\n".data := by decide

/-- C5 (amended): for a line carrying at least one extracted
coordinate, the Normalizer inserts a motion mnemonic exactly when no
modal family was updated by the line and the post-removal text
contains no G followed by a digit — whether any axis value survived
removal plays no role; the inserted mnemonic is ModalState.motion when
set and the default G01 when unset, placed after a leading line-number
token (with following whitespace stripped) when present, else at the
very start. -/
theorem C5_amended_insertion (s : NormState) (l : Line) (coords : Coords) (mu : Bool)
    (h : coordsEmpty coords = false) :
    (handle_coordinates l coords mu s).line =
      (if mu = false ∧ searchPos matchGDigit (removalStage s coords l).line = false then
        (match lineNumTok (removalStage s coords l).line with
         | some p => p ++ s.current_modal_state.motion.getD "G01".data ++
             pyLStrip ((removalStage s coords l).line.drop p.length)
         | none => s.current_modal_state.motion.getD "G01".data ++
             (removalStage s coords l).line)
       else (removalStage s coords l).line) := by
  unfold handle_coordinates
  rw [if_neg (by simp [h])]
  show insertStage s mu (removalStage s coords l).line = _
  unfold insertStage
  cases mu <;> cases hg : searchPos matchGDigit (removalStage s coords l).line <;>
    simp [hg]

/-- Witness for C5 (amended): on the line 'X5' in the initial state,
the default G01 is inserted at the very start. -/
theorem C5_amended_witness :
    (handle_coordinates "X5".data (extract_coordinates "X5".data) false initialState).line =
      (if false = false ∧
          searchPos matchGDigit
            (removalStage initialState (extract_coordinates "X5".data) "X5".data).line = false then
        (match lineNumTok
            (removalStage initialState (extract_coordinates "X5".data) "X5".data).line with
         | some p => p ++ initialState.current_modal_state.motion.getD "G01".data ++
             pyLStrip ((removalStage initialState (extract_coordinates "X5".data)
               "X5".data).line.drop p.length)
         | none => initialState.current_modal_state.motion.getD "G01".data ++
             (removalStage initialState (extract_coordinates "X5".data) "X5".data).line)
       else (removalStage initialState (extract_coordinates "X5".data) "X5".data).line) :=
  C5_amended_insertion initialState "X5".data (extract_coordinates "X5".data) false (by decide)

/-- C1 counterexample: running _normalize_content on its own output is
not a fixed point.  On 'G1 X10 / G1 X10.00009 / G1 X9.99992' the first
run removes the middle X (within epsilon of 10) and keeps the last
(1.7e-4 away from the tracked 10.00009); the second run, seeing only
surviving text, finds the last X within epsilon of 10 and removes it
too, so coordinates_removed = 1 instead of the claimed 0, and the text
differs. -/
theorem C1_counterexample :
    (normalize_content
      (normalize_content "G1 X10\nG1 X10.00009\nG1 X9.99992\n".data
        "f".data "t".data).processed_content
      "f".data "t".data).coordinates_removed = 1 ∧
    (normalize_content
      (normalize_content "G1 X10\nG1 X10.00009\nG1 X9.99992\n".data
        "f".data "t".data).processed_content
      "f".data "t".data).processed_content ≠
      (normalize_content "G1 X10\nG1 X10.00009\nG1 X9.99992\n".data
        "f".data "t".data).processed_content := by decide

/-- C1 (amended): a second run of the Normalizer over its own output
is not a fixed point: it prepends a fresh header and appends a fresh
footer so the text always differs, it re-strips whitespace left behind
by removals, and epsilon-tolerance chains let it remove further
coordinates (the first run tracks the positions of removed tokens, the
second sees only surviving text); on the program 'G1 X10 /
G1 X10.00009 / G1 X9.99992' the second run reports zero mnemonic
rewrites and zero insertions but one further coordinate removal, and
rewrites the surviving body line 'G01 X9.99992' to 'G01'. -/
theorem C1_amended_second_run :
    (normalize_content
      (normalize_content "G1 X10\nG1 X10.00009\nG1 X9.99992\n".data
        "f".data "t".data).processed_content
      "f".data "t".data).g_codes_normalized = 0 ∧
    (normalize_content
      (normalize_content "G1 X10\nG1 X10.00009\nG1 X9.99992\n".data
        "f".data "t".data).processed_content
      "f".data "t".data).g01_commands_added = 0 ∧
    (normalize_content
      (normalize_content "G1 X10\nG1 X10.00009\nG1 X9.99992\n".data
        "f".data "t".data).processed_content
      "f".data "t".data).coordinates_removed = 1 ∧
    (splitlinesKeep (normalize_content "G1 X10\nG1 X10.00009\nG1 X9.99992\n".data
        "f".data "t".data).processed_content)[6]? = some "G01 X9.99992\n".data ∧
    (splitlinesKeep (normalize_content
        (normalize_content "G1 X10\nG1 X10.00009\nG1 X9.99992\n".data
          "f".data "t".data).processed_content
        "f".data "t".data).processed_content)[10]? = some "G01 \n".data ∧
    (splitlinesKeep (normalize_content
        (normalize_content "G1 X10\nG1 X10.00009\nG1 X9.99992\n".data
          "f".data "t".data).processed_content
        "f".data "t".data).processed_content)[4]? =
      some "(Normalized G-code generated by GCodeNormalizer)\n".data := by decide

/-- C9 counterexample: on the spec's three-line example the Normalizer
does not produce the claimed strings: whitespace between tokens is
preserved, the Y0 on line 20 is removed as redundant (Y was set to 0
on line 10), and no F300 appears on line 30; consequently the safety
block before line 20 carries the Y flag 0, not 1. -/
theorem C9_counterexample :
    (splitlinesKeep (normalize_content
        "N10 G0 X0 Y0\nN20 G1 X10 Y0 F300\nN30 G1 X10 Y0 Z-5\n".data
        "f".data "t".data).processed_content)[5]? =
      some "N20 G01 X10  F300\n".data ∧
    "N20 G01 X10  F300\n".data ≠ "N20G01X10Y0F300\n".data ∧
    (splitlinesKeep (normalize_content
        "N10 G0 X0 Y0\nN20 G1 X10 Y0 F300\nN30 G1 X10 Y0 Z-5\n".data
        "f".data "t".data).processed_content)[6]? =
      some "N30 G01   Z-5\n".data ∧
    "N30 G01   Z-5\n".data ≠ "N30G01Z-5F300\n".data ∧
    (analyze_line (pyStrip "N20 G01 X10  F300".data)).y_move = 0 := by decide

/-- C9 (amended): on the example program the Normalizer produces
'N10 G00 X0 Y0', 'N20 G01 X10  F300' (Y0 removed as redundant — Y was
0 since line 10 — and spacing preserved) and 'N30 G01   Z-5' (X10 and
Y0 removed, no F token re-inserted), and the Safety Annotator run on
that output inserts a 5-line block with flags (1,0,0) before line 20
and one with flags (0,0,1) before line 30, and no block before
line 10. -/
theorem C9_amended_end_to_end :
    (splitlinesKeep (normalize_content
        "N10 G0 X0 Y0\nN20 G1 X10 Y0 F300\nN30 G1 X10 Y0 Z-5\n".data
        "f".data "t".data).processed_content) =
      ["(Normalized G-code generated by GCodeNormalizer)\n".data,
       "(Original file: f)\n".data,
       "(Generated on: t)\n".data,
       "\n".data,
       "N10 G00 X0 Y0\n".data,
       "N20 G01 X10  F300\n".data,
       "N30 G01   Z-5\n".data,
       "\n".data,
       "(End of normalized G-code)\n".data,
       "(Processed 3 lines)\n".data,
       "(Normalized 3 G-codes)\n".data,
       "(Removed 2 redundant coordinates)\n".data,
       "(Added 0 explicit G01 commands)\n".data] ∧
    (process_lines (normalize_content
        "N10 G0 X0 Y0\nN20 G1 X10 Y0 F300\nN30 G1 X10 Y0 Z-5\n".data
        "f".data "t".data).processed_content "g".data "u".data).result =
      procHeader "g".data "u".data ++
      ["(Normalized G-code generated by GCodeNormalizer)".data,
       "(Original file: f)".data,
       "(Generated on: t)".data,
       [],
       "N10 G00 X0 Y0".data,
       "#600 = 1".data, "#601 = 1".data, "#602 = 0".data, "#603 = 0".data, "M150".data,
       "N20 G01 X10  F300".data,
       "#600 = 1".data, "#601 = 0".data, "#602 = 0".data, "#603 = 1".data, "M150".data,
       "N30 G01   Z-5".data,
       [],
       "(End of normalized G-code)".data,
       "(Processed 3 lines)".data,
       "(Normalized 3 G-codes)".data,
       "(Removed 2 redundant coordinates)".data,
       "(Added 0 explicit G01 commands)".data] ∧
    (process_lines (normalize_content
        "N10 G0 X0 Y0\nN20 G1 X10 Y0 F300\nN30 G1 X10 Y0 Z-5\n".data
        "f".data "t".data).processed_content "g".data "u".data).safety_checks_added = 2 := by
  refine ⟨by decide, by decide, by decide⟩

end GCodeModel
